import Mathlib

/-!
Shallow embedding of the battery-report pipeline: the basic variant
(`battery_report_app.py`) and the extended variant (`battery_report_app (1).py`).
Both load a spreadsheet of charge/discharge cycle logs, coerce the relevant
columns to numbers, derive KPI values, compute chart axis bounds and build a
PDF KPI table.

A spreadsheet cell is modelled by the rational it coerces to under
`pd.to_numeric(..., errors='coerce')`, or `none` when the cell is empty or
fails numeric conversion (pandas NaN).  A dataframe is an ordered association
list of named columns.  Fallible steps (column access raising `KeyError`,
zero divisions, NaN axis limits) return `Except String`.
-/

namespace BatteryReport

/-- A cell after numeric coercion: `some q` for a numeric value, `none` for NaN. -/
abbrev Cell := Option ℚ

/-- A dataframe column. -/
abbrev Col := List Cell

/-- A dataframe: ordered named columns, as parsed from the first sheet. -/
abbrev Frame := List (String × Col)

/-- Column access `df[name]`: the first column of that name, or a `KeyError`. -/
def getCol : Frame → String → Except String Col
  | [], n => Except.error ("KeyError: " ++ n)
  | (m, c) :: t, n => if m = n then Except.ok c else getCol t n

/-- Column assignment `df[name] = col`: replace the column in place when the
name exists, otherwise append it as the last column (pandas semantics). -/
def setCol : Frame → String → Col → Frame
  | [], n, c => [(n, c)]
  | (m, d) :: t, n, c => if m = n then (n, c) :: t else (m, d) :: setCol t n c

/-- Whether `name in df.columns`. -/
def hasCol (df : Frame) (n : String) : Bool :=
  match getCol df n with
  | Except.ok _ => true
  | Except.error _ => false

/-- `len(df)`: the number of rows (the length of the first column; a parsed
dataframe has columns of equal length). -/
def nRows : Frame → ℕ
  | [] => 0
  | (_, c) :: _ => c.length

/-- A rectangular frame: every column has the common row count. -/
def wf (df : Frame) : Bool :=
  df.all (fun c => c.2.length = nRows df)

/-- `pd.to_numeric(col, errors='coerce')`.  In this embedding a raw cell
already carries the rational it coerces to (`none` for a cell that is empty
or fails conversion), so coercion is the identity on the modelled column. -/
def to_numeric (c : Col) : Col := c

/-- An elementwise comparison such as `col < 20` applied to a coerced cell:
NaN compares false, so a missing cell never satisfies the predicate. -/
def cellPred (p : ℚ → Bool) : Cell → Bool
  | some v => p v
  | none => false

/-- `(col <op> x).sum()`: the number of cells satisfying the comparison. -/
def countCol (p : ℚ → Bool) (c : Col) : ℕ :=
  c.countP (cellPred p)

/-- `col.sum()` with pandas' default `skipna=True`: NaN cells are skipped and
the empty sum is 0. -/
def nansum (c : Col) : ℚ :=
  (c.filterMap id).sum

/-- `col.mean()`: the mean of the non-NaN cells, NaN when there are none. -/
def nanmean (c : Col) : Option ℚ :=
  let v := c.filterMap id
  if v.length = 0 then none else some (v.sum / v.length)

/-- `col.max()` (pandas, `skipna=True`): the largest non-NaN cell, NaN when
there is none. -/
def nanmax (c : Col) : Option ℚ :=
  (c.filterMap id).max?

/-- `numpy_array.max()`: NaN propagates, so the result is NaN as soon as one
cell is NaN (the zero-size case is raised before this is consulted). -/
def npmax (c : Col) : Option ℚ :=
  if c.any (fun o => o.isNone) then none else (c.filterMap id).max?

/-- Python `max(a, x)` where `x` may be NaN: `x` is taken only when the
comparison `x > a` holds, and every comparison with NaN is false. -/
def pymax (a : ℚ) : Option ℚ → ℚ
  | none => a
  | some v => if v > a then v else a

/-- The KPI mapping of the basic variant's `compute_indicators`. -/
structure StatsA where
  total_cycles : ℕ
  over_discharge : ℕ
  over_charge : ℕ
  high_temp : ℕ
  low_temp : ℕ
  full_charges : ℕ
  efficiency : Option ℚ
deriving Repr, DecidableEq, Inhabited

/-- The KPI mapping of the extended variant's `compute_indicators`.  The
source's key `'partial'` is a Lean keyword and is rendered `partial_charges`;
it is a Python `int`, computed as `total - full`. -/
structure StatsB where
  total : ℕ
  deep : ℕ
  full : ℕ
  partial_charges : ℤ
  eff : Option ℚ
  cycles_above45 : ℕ
  tmax_avg : Option ℚ
deriving Repr, DecidableEq, Inhabited

/-- `compute_indicators(df)` of the basic variant: coerce the six source
columns into derived columns on a copy of `df`, then build the KPI dict.
The `df.copy()` line is modelled at the heap level by `heapRun` below; the
value-level function works on the copy. -/
def computeIndicatorsA (df : Frame) : Except String (Frame × StatsA) := do
  let socDisRaw ← getCol df "SoC at End of Discharge [%] (Ah discharged - Ah charged in Discharge phase) / Cnom"
  let socDis := to_numeric socDisRaw
  let df1 := setCol df "SoC_end_discharge" socDis
  let socChgRaw ← getCol df1 "SoC at End of Charge [%]"
  let socChg := to_numeric socChgRaw
  let df2 := setCol df1 "SoC_end_charge" socChg
  let tmaxRaw ← getCol df2 "Max. Temperature At Cycle (℃)"
  let tmax := to_numeric tmaxRaw
  let df3 := setCol df2 "Tmax" tmax
  let tminRaw ← getCol df3 "Min. Temperature At Cycle (℃)"
  let tmin := to_numeric tminRaw
  let df4 := setCol df3 "Tmin" tmin
  let ahDisRaw ← getCol df4 "Ah Discharged"
  let ahDis := to_numeric ahDisRaw
  let df5 := setCol df4 "Ah_dis" ahDis
  let ahChgRaw ← getCol df5 "Ah Charged In Charge Phase"
  let ahChg := to_numeric ahChgRaw
  let df6 := setCol df5 "Ah_chg" ahChg
  let stats : StatsA :=
    { total_cycles := nRows df6
      over_discharge := countCol (fun v => decide (v < 20)) socDis
      over_charge := countCol (fun v => decide (v > 105)) socChg
      high_temp := countCol (fun v => decide (v > 45)) tmax
      low_temp := countCol (fun v => decide (v < 0)) tmin
      full_charges := countCol (fun v => decide (v ≥ 99)) socChg
      efficiency := if nansum ahDis = 0 then none
                    else some (nansum ahChg / nansum ahDis) }
  return (df6, stats)

/-- `compute_indicators(df, c_nom, dod_thr=0.8)` of the extended variant. -/
def computeIndicatorsB (df : Frame) (c_nom dod_thr : ℚ) :
    Except String (Frame × StatsB) := do
  let ahDisRaw ← getCol df "Ah Discharged"
  let ahDis := to_numeric ahDisRaw
  let df1 := setCol df "Ah_dis" ahDis
  let ahChgRaw ← getCol df1 "Ah Charged In Charge Phase"
  let ahChg := to_numeric ahChgRaw
  let df2 := setCol df1 "Ah_chg" ahChg
  let socChgRaw ← getCol df2 "SoC at End of Charge [%]"
  let socChg := to_numeric socChgRaw
  let df3 := setCol df2 "SoC_end_charge" socChg
  let tmaxRaw ← getCol df3 "Max. Temperature At Cycle (℃)"
  let tmax := to_numeric tmaxRaw
  let df4 := setCol df3 "Tmax" tmax
  let total := nRows df4
  let deep := countCol (fun v => decide (v ≥ c_nom * dod_thr)) ahDis
  let full := countCol (fun v => decide (v ≥ 99)) socChg
  let eff : Option ℚ := if nansum ahDis = 0 then none
                        else some (nansum ahChg / nansum ahDis)
  let stats : StatsB :=
    { total := total
      deep := deep
      full := full
      partial_charges := (total : ℤ) - (full : ℤ)
      eff := eff
      cycles_above45 := countCol (fun v => decide (v > 45)) tmax
      tmax_avg := nanmean tmax }
  return (df4, stats)

/-- The Ah chart of the extended variant's `create_charts`: grouped bars per
cycle (offset ∓0.2, width 0.4), pass/fail glyphs, the DOD reference line and
the vertical-axis limits set by `ax.set_ylim(0, y_max * 1.15)`. -/
structure AhChart where
  xs : Col
  dis : Col
  chg : Col
  complete : List Bool
  refline : ℚ
  ylim : ℚ × ℚ
deriving Repr, DecidableEq, Inhabited

/-- The Tmax chart of the extended variant's `create_charts`: one bar series,
the 45 °C reference line and `ax.set_ylim(0, max(50, df['Tmax'].max()*1.1))`. -/
structure TmaxChart where
  xs : Col
  heights : Col
  refline : ℚ
  ylim : ℚ × ℚ
deriving Repr, DecidableEq, Inhabited

/-- The two chart artifacts, keyed `ah_cycle` and `tmax_cycle` in the source. -/
structure ChartsB where
  ah_cycle : AhChart
  tmax_cycle : TmaxChart
deriving Repr, DecidableEq, Inhabited

/-- `create_charts(df, out_dir, c_nom, dod_thr=0.8)` of the extended variant,
restricted to the data-to-shape mapping (bar data, glyphs, reference lines and
axis limits; file output and rendering are out of scope).
`y_max = df[['Ah_dis','Ah_chg']].values.max() * 1.05` raises `ValueError` on a
zero-size slice, and a NaN anywhere in the slice makes the numpy max NaN, so
the later `ax.set_ylim(0, y_max * 1.15)` raises on a NaN limit. -/
def createChartsB (df : Frame) (c_nom dod_thr : ℚ) : Except String ChartsB := do
  let cyc ← getCol df "Cycle Count"
  let ahDis ← getCol df "Ah_dis"
  let ahChg ← getCol df "Ah_chg"
  if (ahDis ++ ahChg).isEmpty then
    throw "ValueError: zero-size array to reduction operation maximum"
  let yMax := (npmax (ahDis ++ ahChg)).map (fun v => v * (21 / 20))
  let socChg ← getCol df "SoC_end_charge"
  let complete := socChg.map (cellPred (fun v => decide (v ≥ 99)))
  let ahUb ← match yMax.map (fun v => v * (23 / 20)) with
    | none => Except.error "ValueError: Axis limits cannot be NaN or Inf"
    | some u => Except.ok u
  let tmax ← getCol df "Tmax"
  let tUb := pymax 50 ((nanmax tmax).map (fun v => v * (11 / 10)))
  return { ah_cycle := { xs := cyc, dis := ahDis, chg := ahChg,
                         complete := complete,
                         refline := c_nom * dod_thr, ylim := (0, ahUb) }
           tmax_cycle := { xs := cyc, heights := tmax,
                           refline := 45, ylim := (0, tUb) } }

/-- The status column of `build_pdf`'s KPI table in the basic variant: each
row's indicator name with its computed status.  Numeric formatting of the
value column is presentation and not modelled.  Building the row
`'Cariche complete (≥99% SoC)'` evaluates
`stats['full_charges']/stats['total_cycles']`, which raises
`ZeroDivisionError` when `total_cycles` is 0; the efficiency row compares
`1.05 <= eff <= 1.10`, and every comparison with NaN is false. -/
def buildPdfTableA (s : StatsA) : Except String (List (String × String)) :=
  let row1 := ("Scariche profonde (<20% SoC)",
               if s.over_discharge > 0 then "Critico" else "OK")
  let row2 := ("Sovra-cariche (>105% SoC)",
               if s.over_charge > 0 then "Critico" else "OK")
  if s.total_cycles = 0 then
    Except.error "ZeroDivisionError: division by zero"
  else
    let ratio : ℚ := (s.full_charges : ℚ) / (s.total_cycles : ℚ)
    let row3 := ("Cariche complete (≥99% SoC)",
                 if ratio ≥ 19 / 20 then "OK" else "Da migliorare")
    let row4 := ("Efficienza Ah",
                 match s.efficiency with
                 | some e => if (21 / 20 : ℚ) ≤ e ∧ e ≤ 11 / 10 then "OK" else "Check"
                 | none => "Check")
    Except.ok [("Indicatore", "Stato"), row1, row2, row3, row4]

/-- The Python heap restricted to dataframe objects: a list of frames, a
reference being an index into it. -/
abbrev Heap := List Frame

/-- A call `f(h[r])` whose body starts with `df = df.copy()`: a fresh frame
is allocated on the heap and every later `df[...] = ...` assignment mutates
only that fresh frame, so the heap keeps every pre-existing object intact and
gains the augmented copy at the end. -/
def heapRun {σ : Type} (f : Frame → Except String (Frame × σ))
    (h : Heap) (r : ℕ) : Except String (Heap × ℕ × σ) :=
  match h[r]? with
  | none => Except.error "invalid dataframe reference"
  | some df0 =>
    match f df0 with
    | Except.error e => Except.error e
    | Except.ok (df', s) => Except.ok (h ++ [df'], h.length, s)

/-- The basic variant's `compute_indicators` as a heap operation. -/
def heapComputeA (h : Heap) (r : ℕ) : Except String (Heap × ℕ × StatsA) :=
  heapRun computeIndicatorsA h r

/-- The extended variant's `compute_indicators` as a heap operation. -/
def heapComputeB (h : Heap) (r : ℕ) (c_nom dod_thr : ℚ) :
    Except String (Heap × ℕ × StatsB) :=
  heapRun (fun df => computeIndicatorsB df c_nom dod_thr) h r

/-- The columns the basic variant's `compute_indicators` reads. -/
def requiredColsA (df : Frame) : Bool :=
  hasCol df "SoC at End of Discharge [%] (Ah discharged - Ah charged in Discharge phase) / Cnom" &&
  hasCol df "SoC at End of Charge [%]" &&
  hasCol df "Max. Temperature At Cycle (℃)" &&
  hasCol df "Min. Temperature At Cycle (℃)" &&
  hasCol df "Ah Discharged" &&
  hasCol df "Ah Charged In Charge Phase"

/-- The columns the extended variant's `compute_indicators` reads. -/
def requiredColsB (df : Frame) : Bool :=
  hasCol df "Ah Discharged" &&
  hasCol df "Ah Charged In Charge Phase" &&
  hasCol df "SoC at End of Charge [%]" &&
  hasCol df "Max. Temperature At Cycle (℃)"

/-- A spreadsheet with the header row and no data rows: all expected columns
present, each empty. -/
def emptyFrame : Frame :=
  [("Cycle Count", []),
   ("Ah Discharged", []),
   ("Ah Charged In Charge Phase", []),
   ("SoC at End of Charge [%]", []),
   ("SoC at End of Discharge [%] (Ah discharged - Ah charged in Discharge phase) / Cnom", []),
   ("Max. Temperature At Cycle (℃)", []),
   ("Min. Temperature At Cycle (℃)", [])]

/-- The spec's worked scenario: three cycles, Ah discharged 800/750/900 and
Ah charged 850/800/950, with SoC and temperature readings added. -/
def sampleFrame : Frame :=
  [("Cycle Count", [some 1, some 2, some 3]),
   ("Ah Discharged", [some 800, some 750, some 900]),
   ("Ah Charged In Charge Phase", [some 850, some 800, some 950]),
   ("SoC at End of Charge [%]", [some 100, some 98, some 100]),
   ("SoC at End of Discharge [%] (Ah discharged - Ah charged in Discharge phase) / Cnom", [some 15, some 25, some 30]),
   ("Max. Temperature At Cycle (℃)", [some 40, some 46, some 30]),
   ("Min. Temperature At Cycle (℃)", [some 5, some (-2), some 10])]

/-- `sampleFrame` with the Tmax column dropped altogether. -/
def frameNoTmax : Frame :=
  [("Cycle Count", [some 1, some 2, some 3]),
   ("Ah Discharged", [some 800, some 750, some 900]),
   ("Ah Charged In Charge Phase", [some 850, some 800, some 950]),
   ("SoC at End of Charge [%]", [some 100, some 98, some 100]),
   ("SoC at End of Discharge [%] (Ah discharged - Ah charged in Discharge phase) / Cnom", [some 15, some 25, some 30]),
   ("Min. Temperature At Cycle (℃)", [some 5, some (-2), some 10])]

/-- `sampleFrame` with a Tmax column none of whose cells coerces to a number. -/
def frameTmaxNaN : Frame :=
  [("Cycle Count", [some 1, some 2, some 3]),
   ("Ah Discharged", [some 800, some 750, some 900]),
   ("Ah Charged In Charge Phase", [some 850, some 800, some 950]),
   ("SoC at End of Charge [%]", [some 100, some 98, some 100]),
   ("SoC at End of Discharge [%] (Ah discharged - Ah charged in Discharge phase) / Cnom", [some 15, some 25, some 30]),
   ("Max. Temperature At Cycle (℃)", [none, none, none]),
   ("Min. Temperature At Cycle (℃)", [some 5, some (-2), some 10])]

/-- The augmented frame the extended variant computes on `sampleFrame`
(capacity 930, DOD threshold 0.8). -/
def sampleAugB : Frame :=
  match computeIndicatorsB sampleFrame 930 (4 / 5) with
  | Except.ok p => p.1
  | Except.error _ => []

/-- The chart pair of the extended variant on the augmented sample frame. -/
def sampleChartsB : ChartsB :=
  match createChartsB sampleAugB 930 (4 / 5) with
  | Except.ok ch => ch
  | Except.error _ => default

/-- The Ah chart of the basic variant's `create_charts`: grouped bars per
cycle (offset ∓0.2, width 0.4) and a pass/fail glyph row at
`y_marker = max(df['Ah_dis'].max(), df['Ah_chg'].max()) * 1.05`; it draws no
reference line and never calls `ax.set_ylim`.  `ylim` records the explicitly
set axis limits; `none` means the code leaves them to the backend's
autoscale. -/
structure AhChartA where
  xs : Col
  dis : Col
  chg : Col
  complete : List Bool
  y_marker : Option ℚ
  ylim : Option (ℚ × ℚ)
deriving Repr, DecidableEq, Inhabited

/-- The Tmax chart of the basic variant's `create_charts`: one bar series and
the dashed 45 °C reference line; no `ax.set_ylim` call, so `ylim = none`. -/
structure TmaxChartA where
  xs : Col
  heights : Col
  refline : ℚ
  ylim : Option (ℚ × ℚ)
deriving Repr, DecidableEq, Inhabited

/-- The two chart artifacts of the basic variant, keyed `ah_cycle` and
`tmax_cycle` in the source. -/
structure ChartsA where
  ah_cycle : AhChartA
  tmax_cycle : TmaxChartA
deriving Repr, DecidableEq, Inhabited

/-- Python `max(x, y)` on two floats either of which may be NaN: `y` is taken
only when `y > x` holds and every comparison with NaN is false, so
`max(nan, y) = nan` while `max(x, nan) = x`. -/
def pymaxOpt : Option ℚ → Option ℚ → Option ℚ
  | none, _ => none
  | some a, none => some a
  | some a, some b => some (if b > a then b else a)

/-- `create_charts(df, out_dir)` of the basic variant, restricted to the
data-to-shape mapping.  It draws the same two bar charts as the extended
variant but never calls `ax.set_ylim`, so both charts keep the backend's
automatic axis limits (`ylim = none`); the glyph row sits at
`max(df['Ah_dis'].max(), df['Ah_chg'].max()) * 1.05` (pandas column maxes,
NaN-skipping, NaN only for an empty or all-NaN column). -/
def createChartsA (df : Frame) : Except String ChartsA := do
  let cyc ← getCol df "Cycle Count"
  let ahDis ← getCol df "Ah_dis"
  let ahChg ← getCol df "Ah_chg"
  let socChg ← getCol df "SoC_end_charge"
  let complete := socChg.map (cellPred (fun v => decide (v ≥ 99)))
  let y_marker :=
    (pymaxOpt (nanmax ahDis) (nanmax ahChg)).map (fun v => v * (21 / 20))
  let tmax ← getCol df "Tmax"
  return { ah_cycle := { xs := cyc, dis := ahDis, chg := ahChg,
                         complete := complete, y_marker := y_marker,
                         ylim := none }
           tmax_cycle := { xs := cyc, heights := tmax, refline := 45,
                           ylim := none } }

/-- The augmented frame the basic variant computes on `sampleFrame`. -/
def sampleAugA : Frame :=
  match computeIndicatorsA sampleFrame with
  | Except.ok p => p.1
  | Except.error _ => []

/-- The chart pair of the basic variant on its augmented sample frame. -/
def sampleChartsA : ChartsA :=
  match createChartsA sampleAugA with
  | Except.ok ch => ch
  | Except.error _ => default

/-- The frame after the basic variant's six derived-column assignments, with
the derived columns as arguments. -/
def augFrameA (df : Frame) (socDis socChg tmax tmin dis chg : Col) : Frame :=
  setCol (setCol (setCol (setCol (setCol (setCol df
    "SoC_end_discharge" socDis) "SoC_end_charge" socChg)
    "Tmax" tmax) "Tmin" tmin) "Ah_dis" dis) "Ah_chg" chg

/-- The frame after the extended variant's four derived-column assignments,
with the derived columns as arguments. -/
def augFrameB (df : Frame) (dis chg soc tm : Col) : Frame :=
  setCol (setCol (setCol (setCol df
    "Ah_dis" dis) "Ah_chg" chg) "SoC_end_charge" soc) "Tmax" tm

/-
Lemma layer: evaluation rules for column access, the count and max
aggregates, and normal forms of the two `compute_indicators` variants.
-/

theorem getCol_setCol (df : Frame) (m n : String) (c : Col) :
    getCol (setCol df m c) n = if n = m then Except.ok c else getCol df n := by
  induction df with
  | nil =>
    simp only [setCol, getCol]
    rcases eq_or_ne n m with h | h
    · subst h; simp
    · rw [if_neg (Ne.symm h), if_neg h]
  | cons p t ih =>
    obtain ⟨k, d⟩ := p
    simp only [setCol]
    rcases eq_or_ne k m with hkm | hkm
    · subst hkm
      rw [if_pos rfl]
      simp only [getCol]
      rcases eq_or_ne n k with hnk | hnk
      · subst hnk; simp
      · rw [if_neg (Ne.symm hnk), if_neg hnk, if_neg (Ne.symm hnk)]
    · rw [if_neg hkm]
      simp only [getCol]
      rcases eq_or_ne k n with hkn | hkn
      · subst hkn
        rw [if_pos rfl, if_neg (fun hh : k = m => hkm hh), if_pos rfl]
      · rw [if_neg hkn, if_neg hkn, ih]

theorem ok_bind {α β : Type} (a : α) (f : α → Except String β) :
    (Except.ok a : Except String α) >>= f = f a := rfl

theorem error_bind {α β : Type} (e : String) (f : α → Except String β) :
    (Except.error e : Except String α) >>= f = Except.error e := rfl

theorem throw_bind {α β : Type} (e : String) (f : α → Except String β) :
    (throw e : Except String α) >>= f = Except.error e := rfl

theorem map_ok {α β : Type} (g : α → β) (a : α) :
    g <$> (Except.ok a : Except String α) = Except.ok (g a) := rfl

theorem map_error {α β : Type} (g : α → β) (e : String) :
    g <$> (Except.error e : Except String α) = Except.error e := rfl

theorem pure_eq_ok {α : Type} (a : α) :
    (pure a : Except String α) = Except.ok a := rfl

theorem hasCol_ok (df : Frame) (n : String) (h : hasCol df n = true) :
    ∃ c, getCol df n = Except.ok c := by
  unfold hasCol at h
  cases hg : getCol df n with
  | ok c => exact ⟨c, rfl⟩
  | error e => rw [hg] at h; simp at h

theorem hasCol_of_getCol (df : Frame) (n : String) (c : Col)
    (h : getCol df n = Except.ok c) : hasCol df n = true := by
  unfold hasCol
  rw [h]

theorem getCol_mem (df : Frame) (n : String) (c : Col)
    (h : getCol df n = Except.ok c) : (n, c) ∈ df := by
  induction df with
  | nil => simp [getCol] at h
  | cons p t ih =>
    obtain ⟨k, d⟩ := p
    simp only [getCol] at h
    by_cases hk : k = n
    · subst hk
      rw [if_pos rfl] at h
      cases h
      exact List.mem_cons_self _ _
    · rw [if_neg hk] at h
      exact List.mem_cons_of_mem _ (ih h)

theorem getCol_length (df : Frame) (n : String) (c : Col)
    (hwf : wf df = true) (h : getCol df n = Except.ok c) :
    c.length = nRows df := by
  have hm := getCol_mem df n c h
  unfold wf at hwf
  rw [List.all_eq_true] at hwf
  simpa using hwf _ hm

theorem nRows_setCol (df : Frame) (n : String) (c : Col)
    (h : c.length = nRows df) : nRows (setCol df n c) = nRows df := by
  cases df with
  | nil => simpa [setCol, nRows] using h
  | cons p t =>
    obtain ⟨k, d⟩ := p
    simp only [setCol]
    rcases eq_or_ne k n with hk | hk
    · rw [if_pos hk]; simpa [nRows] using h
    · rw [if_neg hk]; rfl

theorem countCol_eq_filterMap (p : ℚ → Bool) (c : Col) :
    countCol p c = (c.filterMap id).countP p := by
  induction c with
  | nil => rfl
  | cons o t ih =>
    cases o with
    | none => simpa [countCol, cellPred, List.countP_cons] using ih
    | some v => simp [countCol, cellPred, List.countP_cons] at ih ⊢; omega

theorem countCol_le_length (p : ℚ → Bool) (c : Col) :
    countCol p c ≤ c.length :=
  List.countP_le_length _

theorem filterMap_eq_nil_of_allNone (c : Col)
    (h : c.all (fun o => o.isNone) = true) : c.filterMap id = [] := by
  induction c with
  | nil => rfl
  | cons o t ih =>
    cases o with
    | none =>
      simp only [List.all_cons, Option.isNone_none, Bool.true_and] at h
      simpa using ih h
    | some v => simp [List.all_cons] at h

theorem le_foldl_max (t : List ℚ) (x : ℚ) : x ≤ t.foldl max x := by
  induction t generalizing x with
  | nil => exact le_refl x
  | cons y t ih => exact le_trans (le_max_left x y) (ih (max x y))

theorem mem_le_foldl_max (t : List ℚ) (x v : ℚ) (h : v ∈ t) :
    v ≤ t.foldl max x := by
  induction t generalizing x with
  | nil => cases h
  | cons y t ih =>
    simp only [List.foldl_cons]
    rcases List.mem_cons.mp h with hv | hv
    · subst hv
      exact le_trans (le_max_right x v) (le_foldl_max t (max x v))
    · exact ih (max x y) hv

theorem mem_le_nanmax (c : Col) (v : ℚ) (h : some v ∈ c) :
    ∃ m, nanmax c = some m ∧ v ≤ m := by
  have hv : v ∈ c.filterMap id := List.mem_filterMap.mpr ⟨some v, h, rfl⟩
  unfold nanmax
  cases hf : c.filterMap id with
  | nil => rw [hf] at hv; cases hv
  | cons x t =>
    refine ⟨t.foldl max x, by simp [List.max?], ?_⟩
    rw [hf] at hv
    rcases List.mem_cons.mp hv with hv | hv
    · subst hv; exact le_foldl_max t v
    · exact mem_le_foldl_max t x v hv

theorem computeIndicatorsA_eq (df : Frame) (socDis socChg tmax tmin dis chg : Col)
    (h1 : getCol df "SoC at End of Discharge [%] (Ah discharged - Ah charged in Discharge phase) / Cnom" = Except.ok socDis)
    (h2 : getCol df "SoC at End of Charge [%]" = Except.ok socChg)
    (h3 : getCol df "Max. Temperature At Cycle (℃)" = Except.ok tmax)
    (h4 : getCol df "Min. Temperature At Cycle (℃)" = Except.ok tmin)
    (h5 : getCol df "Ah Discharged" = Except.ok dis)
    (h6 : getCol df "Ah Charged In Charge Phase" = Except.ok chg) :
    computeIndicatorsA df =
      Except.ok
        (augFrameA df (to_numeric socDis) (to_numeric socChg) (to_numeric tmax)
           (to_numeric tmin) (to_numeric dis) (to_numeric chg),
         { total_cycles := nRows (augFrameA df (to_numeric socDis) (to_numeric socChg)
             (to_numeric tmax) (to_numeric tmin) (to_numeric dis) (to_numeric chg))
           over_discharge := countCol (fun v => decide (v < 20)) (to_numeric socDis)
           over_charge := countCol (fun v => decide (v > 105)) (to_numeric socChg)
           high_temp := countCol (fun v => decide (v > 45)) (to_numeric tmax)
           low_temp := countCol (fun v => decide (v < 0)) (to_numeric tmin)
           full_charges := countCol (fun v => decide (v ≥ 99)) (to_numeric socChg)
           efficiency := if nansum (to_numeric dis) = 0 then none
                         else some (nansum (to_numeric chg) / nansum (to_numeric dis)) }) := by
  simp [computeIndicatorsA, augFrameA, h1, h2, h3, h4, h5, h6, getCol_setCol, ok_bind]

theorem computeIndicatorsB_eq (df : Frame) (c t : ℚ) (dis chg soc tm : Col)
    (h1 : getCol df "Ah Discharged" = Except.ok dis)
    (h2 : getCol df "Ah Charged In Charge Phase" = Except.ok chg)
    (h3 : getCol df "SoC at End of Charge [%]" = Except.ok soc)
    (h4 : getCol df "Max. Temperature At Cycle (℃)" = Except.ok tm) :
    computeIndicatorsB df c t =
      Except.ok
        (augFrameB df (to_numeric dis) (to_numeric chg) (to_numeric soc) (to_numeric tm),
         { total := nRows (augFrameB df (to_numeric dis) (to_numeric chg)
             (to_numeric soc) (to_numeric tm))
           deep := countCol (fun v => decide (v ≥ c * t)) (to_numeric dis)
           full := countCol (fun v => decide (v ≥ 99)) (to_numeric soc)
           partial_charges :=
             (nRows (augFrameB df (to_numeric dis) (to_numeric chg)
                (to_numeric soc) (to_numeric tm)) : ℤ) -
             (countCol (fun v => decide (v ≥ 99)) (to_numeric soc) : ℤ)
           eff := if nansum (to_numeric dis) = 0 then none
                  else some (nansum (to_numeric chg) / nansum (to_numeric dis))
           cycles_above45 := countCol (fun v => decide (v > 45)) (to_numeric tm)
           tmax_avg := nanmean (to_numeric tm) }) := by
  simp [computeIndicatorsB, augFrameB, h1, h2, h3, h4, getCol_setCol, ok_bind]

theorem createChartsB_ok (df : Frame) (c t : ℚ) (ch : ChartsB)
    (h : createChartsB df c t = Except.ok ch) :
    ∃ cyc dis chg soc tm m,
      getCol df "Cycle Count" = Except.ok cyc ∧
      getCol df "Ah_dis" = Except.ok dis ∧
      getCol df "Ah_chg" = Except.ok chg ∧
      getCol df "SoC_end_charge" = Except.ok soc ∧
      getCol df "Tmax" = Except.ok tm ∧
      npmax (dis ++ chg) = some m ∧
      ch = { ah_cycle := { xs := cyc, dis := dis, chg := chg,
                           complete := soc.map (cellPred (fun v => decide (v ≥ 99))),
                           refline := c * t,
                           ylim := (0, m * (21 / 20) * (23 / 20)) }
             tmax_cycle := { xs := cyc, heights := tm, refline := 45,
                             ylim := (0, pymax 50 ((nanmax tm).map (fun v => v * (11 / 10)))) } } := by
  unfold createChartsB at h
  cases h1 : getCol df "Cycle Count" with
  | error e => rw [h1, error_bind] at h; cases h
  | ok cyc =>
  rw [h1, ok_bind] at h
  cases h2 : getCol df "Ah_dis" with
  | error e => rw [h2, error_bind] at h; cases h
  | ok dis =>
  rw [h2, ok_bind] at h
  cases h3 : getCol df "Ah_chg" with
  | error e => rw [h3, error_bind] at h; cases h
  | ok chg =>
  rw [h3, ok_bind] at h
  by_cases hemp : (dis ++ chg).isEmpty = true
  · simp only [hemp, if_true, throw_bind] at h
    simp at h
  simp only [hemp, Bool.false_eq_true, if_false] at h
  cases h4 : getCol df "SoC_end_charge" with
  | error e => simp only [h4, error_bind] at h; simp at h
  | ok soc =>
  simp only [h4, ok_bind] at h
  cases h5 : npmax (dis ++ chg) with
  | none => simp only [h5, Option.map_none', error_bind] at h; cases h
  | some m =>
  simp only [h5, Option.map_some'] at h
  cases h6 : getCol df "Tmax" with
  | error e => simp only [h6, map_error] at h; simp at h
  | ok tm =>
  simp only [h6, map_ok, pure_eq_ok] at h
  refine ⟨cyc, dis, chg, soc, tm, m, rfl, rfl, rfl, rfl, rfl, h5, ?_⟩
  injection h with hh
  rw [← hh]

theorem createChartsA_ok (df : Frame) (ch : ChartsA)
    (h : createChartsA df = Except.ok ch) :
    ch.ah_cycle.ylim = none ∧ ch.tmax_cycle.ylim = none := by
  unfold createChartsA at h
  cases h1 : getCol df "Cycle Count" with
  | error e => rw [h1, error_bind] at h; cases h
  | ok cyc =>
  rw [h1, ok_bind] at h
  cases h2 : getCol df "Ah_dis" with
  | error e => rw [h2, error_bind] at h; cases h
  | ok dis =>
  rw [h2, ok_bind] at h
  cases h3 : getCol df "Ah_chg" with
  | error e => rw [h3, error_bind] at h; cases h
  | ok chg =>
  rw [h3, ok_bind] at h
  cases h4 : getCol df "SoC_end_charge" with
  | error e => rw [h4, error_bind] at h; cases h
  | ok soc =>
  rw [h4, ok_bind] at h
  cases h5 : getCol df "Tmax" with
  | error e => simp only [h5, error_bind] at h; cases h
  | ok tm =>
  simp only [h5, ok_bind, pure_eq_ok] at h
  injection h with hh
  rw [← hh]
  exact ⟨rfl, rfl⟩

theorem le_pymax (a : ℚ) (x : Option ℚ) : a ≤ pymax a x := by
  cases x with
  | none => exact le_refl a
  | some v =>
    show a ≤ if v > a then v else a
    split
    · next h => exact le_of_lt h
    · next h => exact le_refl a

theorem pymax_some (a v : ℚ) : pymax a (some v) = max a v := by
  show (if v > a then v else a) = max a v
  split
  · next h => exact (max_eq_right (le_of_lt h)).symm
  · next h => exact (max_eq_left (not_lt.mp h)).symm

theorem countCol_eq_zero_of_allNone (p : ℚ → Bool) (c : Col)
    (h : c.all (fun o => o.isNone) = true) : countCol p c = 0 := by
  rw [countCol_eq_filterMap, filterMap_eq_nil_of_allNone c h]
  rfl

theorem nanmean_eq_none_of_allNone (c : Col)
    (h : c.all (fun o => o.isNone) = true) : nanmean c = none := by
  unfold nanmean
  rw [filterMap_eq_nil_of_allNone c h]
  rfl

theorem nRows_augFrameB (df : Frame) (dis chg soc tm : Col)
    (l1 : dis.length = nRows df) (l2 : chg.length = nRows df)
    (l3 : soc.length = nRows df) (l4 : tm.length = nRows df) :
    nRows (augFrameB df dis chg soc tm) = nRows df := by
  unfold augFrameB
  have n1 := nRows_setCol df "Ah_dis" dis l1
  have n2 := nRows_setCol (setCol df "Ah_dis" dis) "Ah_chg" chg
    (l2.trans n1.symm)
  have n3 := nRows_setCol (setCol (setCol df "Ah_dis" dis) "Ah_chg" chg)
    "SoC_end_charge" soc (l3.trans (n2.trans n1).symm)
  have n4 := nRows_setCol (setCol (setCol (setCol df "Ah_dis" dis)
      "Ah_chg" chg) "SoC_end_charge" soc)
    "Tmax" tm (l4.trans ((n3.trans n2).trans n1).symm)
  rw [n4, n3, n2, n1]

theorem nRows_augFrameA (df : Frame) (socDis socChg tmax tmin dis chg : Col)
    (l1 : socDis.length = nRows df) (l2 : socChg.length = nRows df)
    (l3 : tmax.length = nRows df) (l4 : tmin.length = nRows df)
    (l5 : dis.length = nRows df) (l6 : chg.length = nRows df) :
    nRows (augFrameA df socDis socChg tmax tmin dis chg) = nRows df := by
  unfold augFrameA
  have n1 := nRows_setCol df "SoC_end_discharge" socDis l1
  have n2 := nRows_setCol _ "SoC_end_charge" socChg (l2.trans n1.symm)
  have n3 := nRows_setCol _ "Tmax" tmax (l3.trans (n2.trans n1).symm)
  have n4 := nRows_setCol _ "Tmin" tmin (l4.trans ((n3.trans n2).trans n1).symm)
  have n5 := nRows_setCol _ "Ah_dis" dis
    (l5.trans (((n4.trans n3).trans n2).trans n1).symm)
  have n6 := nRows_setCol _ "Ah_chg" chg
    (l6.trans ((((n5.trans n4).trans n3).trans n2).trans n1).symm)
  rw [n6, n5, n4, n3, n2, n1]

theorem hasCol_setCol_self (df : Frame) (n : String) (c : Col) :
    hasCol (setCol df n c) n = true := by
  unfold hasCol
  rw [getCol_setCol, if_pos rfl]

theorem hasCol_setCol_ne (df : Frame) (m n : String) (c : Col) (h : n ≠ m) :
    hasCol (setCol df m c) n = hasCol df n := by
  unfold hasCol
  rw [getCol_setCol, if_neg h]

theorem heapRun_ok {σ : Type} (f : Frame → Except String (Frame × σ))
    (h : Heap) (r : ℕ) (df0 df' : Frame) (s : σ)
    (hr : h[r]? = some df0) (hf : f df0 = Except.ok (df', s)) :
    heapRun f h r = Except.ok (h ++ [df'], h.length, s) ∧
    (h ++ [df'])[r]? = some df0 ∧
    (∀ i, i < h.length → (h ++ [df'])[i]? = h[i]?) ∧
    h.length ≠ r ∧
    (h ++ [df'])[h.length]? = some df' := by
  have hrlt : r < h.length := by
    by_contra hcon
    rw [List.getElem?_eq_none (Nat.le_of_not_lt hcon)] at hr
    cases hr
  refine ⟨?_, ?_, ?_, Nat.ne_of_gt hrlt, List.getElem?_concat_length _ _⟩
  · simp only [heapRun, hr, hf]
  · rw [List.getElem?_append, if_pos hrlt]
    exact hr
  · intro i hi
    rw [List.getElem?_append, if_pos hi]

/-
Claim theorems.
-/

/-- C1: for every dataset holding the columns each variant reads, the
charge-efficiency KPI equals the sum of the coerced charged column divided by
the sum of the coerced discharged column, and it is the explicit undefined
value (`none`, pandas NaN) when the discharged sum is zero — the computation
returns a KPI mapping in both cases, so a zero discharged sum never raises a
division error. -/
theorem C1_charge_efficiency_guard (dfA dfB : Frame) (c t : ℚ)
    (disA chgA disB chgB : Col)
    (hA : requiredColsA dfA = true)
    (hdA : getCol dfA "Ah Discharged" = Except.ok disA)
    (hcA : getCol dfA "Ah Charged In Charge Phase" = Except.ok chgA)
    (hB : requiredColsB dfB = true)
    (hdB : getCol dfB "Ah Discharged" = Except.ok disB)
    (hcB : getCol dfB "Ah Charged In Charge Phase" = Except.ok chgB) :
    (∃ p, computeIndicatorsA dfA = Except.ok p ∧
       p.2.efficiency = if nansum (to_numeric disA) = 0 then none
                        else some (nansum (to_numeric chgA) / nansum (to_numeric disA)))
    ∧ (∃ p, computeIndicatorsB dfB c t = Except.ok p ∧
       p.2.eff = if nansum (to_numeric disB) = 0 then none
                 else some (nansum (to_numeric chgB) / nansum (to_numeric disB))) := by
  constructor
  · unfold requiredColsA at hA
    simp only [Bool.and_eq_true] at hA
    obtain ⟨⟨⟨⟨⟨h1, h2⟩, h3⟩, h4⟩, h5⟩, h6⟩ := hA
    obtain ⟨socDis, e1⟩ := hasCol_ok _ _ h1
    obtain ⟨socChg, e2⟩ := hasCol_ok _ _ h2
    obtain ⟨tmx, e3⟩ := hasCol_ok _ _ h3
    obtain ⟨tmn, e4⟩ := hasCol_ok _ _ h4
    exact ⟨_, computeIndicatorsA_eq dfA socDis socChg tmx tmn disA chgA
      e1 e2 e3 e4 hdA hcA, rfl⟩
  · unfold requiredColsB at hB
    simp only [Bool.and_eq_true] at hB
    obtain ⟨⟨⟨_, _⟩, h3⟩, h4⟩ := hB
    obtain ⟨soc, e3⟩ := hasCol_ok _ _ h3
    obtain ⟨tmx, e4⟩ := hasCol_ok _ _ h4
    exact ⟨_, computeIndicatorsB_eq dfB c t disB chgB soc tmx hdB hcB e3 e4, rfl⟩

/-- Witness for C1 at the spec's three-cycle scenario (efficiency
2600/2450 = 52/49). -/
theorem C1_charge_efficiency_guard_witness :
    (∃ p, computeIndicatorsA sampleFrame = Except.ok p ∧
       p.2.efficiency = if nansum (to_numeric [some 800, some 750, some 900]) = 0 then none
                        else some (nansum (to_numeric [some 850, some 800, some 950]) /
                                   nansum (to_numeric [some 800, some 750, some 900])))
    ∧ (∃ p, computeIndicatorsB sampleFrame 930 (4 / 5) = Except.ok p ∧
       p.2.eff = if nansum (to_numeric [some 800, some 750, some 900]) = 0 then none
                 else some (nansum (to_numeric [some 850, some 800, some 950]) /
                            nansum (to_numeric [some 800, some 750, some 900]))) :=
  C1_charge_efficiency_guard sampleFrame sampleFrame 930 (4 / 5)
    [some 800, some 750, some 900] [some 850, some 800, some 950]
    [some 800, some 750, some 900] [some 850, some 800, some 950]
    rfl rfl rfl rfl rfl rfl

/-- C2 counterexample: on a dataset lacking the column
`Max. Temperature At Cycle (℃)` both variants of `compute_indicators` abort
with a `KeyError` — they do not return a KPI mapping with NaN-valued
Tmax KPIs. -/
theorem C2_missing_tmax_counterexample :
    computeIndicatorsA frameNoTmax =
      Except.error "KeyError: Max. Temperature At Cycle (℃)" ∧
    computeIndicatorsB frameNoTmax 930 (4 / 5) =
      Except.error "KeyError: Max. Temperature At Cycle (℃)" :=
  ⟨rfl, rfl⟩

/-- C2 (amended): a spreadsheet missing the Tmax column makes
`compute_indicators` raise `KeyError` and abort; only when the column is
present but no cell of it coerces to a number does the run complete, and then
the mean-Tmax KPI is the undefined value while the high-temperature count is
0 (not NaN). -/
theorem C2_all_nan_tmax (dfA dfB : Frame) (c t : ℚ) (tmA tmB : Col)
    (hA : requiredColsA dfA = true)
    (htA : getCol dfA "Max. Temperature At Cycle (℃)" = Except.ok tmA)
    (hallA : (to_numeric tmA).all (fun o => o.isNone) = true)
    (hB : requiredColsB dfB = true)
    (htB : getCol dfB "Max. Temperature At Cycle (℃)" = Except.ok tmB)
    (hallB : (to_numeric tmB).all (fun o => o.isNone) = true) :
    (∃ p, computeIndicatorsA dfA = Except.ok p ∧ p.2.high_temp = 0)
    ∧ (∃ p, computeIndicatorsB dfB c t = Except.ok p ∧
        p.2.tmax_avg = none ∧ p.2.cycles_above45 = 0) := by
  constructor
  · unfold requiredColsA at hA
    simp only [Bool.and_eq_true] at hA
    obtain ⟨⟨⟨⟨⟨h1, h2⟩, _⟩, h4⟩, h5⟩, h6⟩ := hA
    obtain ⟨socDis, e1⟩ := hasCol_ok _ _ h1
    obtain ⟨socChg, e2⟩ := hasCol_ok _ _ h2
    obtain ⟨tmn, e4⟩ := hasCol_ok _ _ h4
    obtain ⟨dis, e5⟩ := hasCol_ok _ _ h5
    obtain ⟨chg, e6⟩ := hasCol_ok _ _ h6
    exact ⟨_, computeIndicatorsA_eq dfA socDis socChg tmA tmn dis chg
      e1 e2 htA e4 e5 e6, countCol_eq_zero_of_allNone _ _ hallA⟩
  · unfold requiredColsB at hB
    simp only [Bool.and_eq_true] at hB
    obtain ⟨⟨⟨h1, h2⟩, h3⟩, _⟩ := hB
    obtain ⟨dis, e1⟩ := hasCol_ok _ _ h1
    obtain ⟨chg, e2⟩ := hasCol_ok _ _ h2
    obtain ⟨soc, e3⟩ := hasCol_ok _ _ h3
    exact ⟨_, computeIndicatorsB_eq dfB c t dis chg soc tmB e1 e2 e3 htB,
      nanmean_eq_none_of_allNone _ hallB,
      countCol_eq_zero_of_allNone _ _ hallB⟩

/-- Witness for the amended C2 on a dataset whose Tmax column is entirely
non-numeric. -/
theorem C2_all_nan_tmax_witness :
    (∃ p, computeIndicatorsA frameTmaxNaN = Except.ok p ∧ p.2.high_temp = 0)
    ∧ (∃ p, computeIndicatorsB frameTmaxNaN 930 (4 / 5) = Except.ok p ∧
        p.2.tmax_avg = none ∧ p.2.cycles_above45 = 0) :=
  C2_all_nan_tmax frameTmaxNaN frameTmaxNaN 930 (4 / 5)
    [none, none, none] [none, none, none] rfl rfl rfl rfl rfl rfl

/-- C5 counterexample: the basic variant's `build_pdf` computes the
full-charge ratio `stats['full_charges'] / stats['total_cycles']` for its
status column; on the complete KPI mapping the pipeline itself produces for
the empty dataset it raises `ZeroDivisionError` — an error that is neither a
missing image nor a missing KPI key. -/
theorem C5_build_pdf_counterexample :
    (computeIndicatorsA emptyFrame).map (fun p => buildPdfTableA p.2) =
      Except.ok (Except.error "ZeroDivisionError: division by zero") :=
  rfl

/-- C5 (amended): `build_pdf` does compute (threshold statuses and the
full-charge ratio); on every complete KPI mapping with at least one cycle the
KPI table builds without raising, while with zero cycles the ratio raises a
division error. -/
theorem C5_build_pdf_total_pos (s : StatsA) (h : s.total_cycles ≠ 0) :
    ∃ rows, buildPdfTableA s = Except.ok rows := by
  simp only [buildPdfTableA]
  rw [if_neg h]
  exact ⟨_, rfl⟩

/-- Witness for the amended C5 at the sample scenario's KPI mapping. -/
theorem C5_build_pdf_total_pos_witness :
    ∃ rows, buildPdfTableA
      { total_cycles := 3, over_discharge := 1, over_charge := 0,
        high_temp := 1, low_temp := 1, full_charges := 2,
        efficiency := some (52 / 49) } = Except.ok rows :=
  C5_build_pdf_total_pos _ (by decide)

/-- C3: in the extended variant's KPI mapping, `full + partial = total`,
where `full` counts the rows whose coerced end-of-charge SoC is ≥ 99 and
`partial` is the count of the remaining (partial-charge) cycles. -/
theorem C3_full_add_partial_eq_total (df : Frame) (c t : ℚ) (soc : Col)
    (hB : requiredColsB df = true)
    (hs : getCol df "SoC at End of Charge [%]" = Except.ok soc) :
    ∃ p, computeIndicatorsB df c t = Except.ok p ∧
      (p.2.full : ℤ) + p.2.partial_charges = (p.2.total : ℤ) ∧
      p.2.full = countCol (fun v => decide (v ≥ 99)) (to_numeric soc) := by
  unfold requiredColsB at hB
  simp only [Bool.and_eq_true] at hB
  obtain ⟨⟨⟨h1, h2⟩, _⟩, h4⟩ := hB
  obtain ⟨dis, e1⟩ := hasCol_ok _ _ h1
  obtain ⟨chg, e2⟩ := hasCol_ok _ _ h2
  obtain ⟨tm, e4⟩ := hasCol_ok _ _ h4
  refine ⟨_, computeIndicatorsB_eq df c t dis chg soc tm e1 e2 hs e4, ?_, rfl⟩
  ring

/-- Witness for C3: 2 full + 1 partial = 3 total on the sample scenario. -/
theorem C3_full_add_partial_eq_total_witness :
    ∃ p, computeIndicatorsB sampleFrame 930 (4 / 5) = Except.ok p ∧
      (p.2.full : ℤ) + p.2.partial_charges = (p.2.total : ℤ) ∧
      p.2.full = countCol (fun v => decide (v ≥ 99))
        (to_numeric [some 100, some 98, some 100]) :=
  C3_full_add_partial_eq_total sampleFrame 930 (4 / 5)
    [some 100, some 98, some 100] rfl rfl

/-- C4: the deep-discharge KPI of the extended variant counts exactly the
cycles whose coerced Ah-discharged cell holds a value ≥ capacity × threshold:
a cell equal to the product is counted, a cell strictly below it or a missing
cell is not. -/
theorem C4_deep_discharge_boundary (df : Frame) (c t : ℚ) (dis : Col)
    (hB : requiredColsB df = true)
    (hd : getCol df "Ah Discharged" = Except.ok dis) :
    ∃ p, computeIndicatorsB df c t = Except.ok p ∧
      p.2.deep = countCol (fun v => decide (v ≥ c * t)) (to_numeric dis) ∧
      (∀ o : Cell, cellPred (fun v => decide (v ≥ c * t)) o = true ↔
        ∃ v, o = some v ∧ c * t ≤ v) := by
  unfold requiredColsB at hB
  simp only [Bool.and_eq_true] at hB
  obtain ⟨⟨⟨_, h2⟩, h3⟩, h4⟩ := hB
  obtain ⟨chg, e2⟩ := hasCol_ok _ _ h2
  obtain ⟨soc, e3⟩ := hasCol_ok _ _ h3
  obtain ⟨tm, e4⟩ := hasCol_ok _ _ h4
  refine ⟨_, computeIndicatorsB_eq df c t dis chg soc tm hd e2 e3 e4, rfl, ?_⟩
  intro o
  cases o with
  | none => simp [cellPred]
  | some v => simp [cellPred]

/-- Witness for C4 at the spec's scenario: threshold 930 × 0.8 = 744 and all
three cycles (800, 750, 900) are deep. -/
theorem C4_deep_discharge_boundary_witness :
    ∃ p, computeIndicatorsB sampleFrame 930 (4 / 5) = Except.ok p ∧
      p.2.deep = countCol (fun v => decide (v ≥ 930 * (4 / 5)))
        (to_numeric [some 800, some 750, some 900]) ∧
      (∀ o : Cell, cellPred (fun v => decide (v ≥ 930 * (4 / 5))) o = true ↔
        ∃ v, o = some v ∧ 930 * (4 / 5) ≤ v) :=
  C4_deep_discharge_boundary sampleFrame 930 (4 / 5)
    [some 800, some 750, some 900] rfl rfl

/-- C7 counterexample: the basic variant's `create_charts` never calls
`ax.set_ylim` on its temperature chart, so on the basic pipeline's own
augmented sample frame the produced chart carries no explicitly set vertical
bounds at all — in particular not the claimed
`(0, max(50, 1.1 × max observed Tmax))`. -/
theorem C7_tmax_chart_counterexample :
    createChartsA sampleAugA = Except.ok sampleChartsA ∧
    sampleChartsA.tmax_cycle.heights = [some 40, some 46, some 30] ∧
    sampleChartsA.tmax_cycle.ylim = none ∧
    (none : Option (ℚ × ℚ)) ≠
      some (0, pymax 50 ((nanmax [some 40, some 46, some 30]).map
        (fun v => v * (11 / 10)))) :=
  ⟨rfl, rfl, rfl, by simp⟩

/-- C7 (amended): whenever the extended variant's `create_charts` produces
its charts, the temperature chart's vertical axis is `(0, max(50, 1.1 × max
observed Tmax))`: the lower bound is 0, the upper bound is ≥ 50, equals
`max 50 (1.1 m)` whenever the observed maximum `m` exists, and dominates
every plotted (non-NaN) Tmax bar height.  The basic variant's `create_charts`
sets no explicit vertical bounds on its temperature chart, leaving the axis
to the backend's autoscale, so the claimed bounds are not established
there. -/
theorem C7_tmax_chart_bounds (df : Frame) (c t : ℚ) (ch : ChartsB) (tm : Col)
    (h : createChartsB df c t = Except.ok ch)
    (htm : getCol df "Tmax" = Except.ok tm)
    (dfA : Frame) (chA : ChartsA)
    (hA : createChartsA dfA = Except.ok chA) :
    (ch.tmax_cycle.ylim =
      (0, pymax 50 ((nanmax tm).map (fun v => v * (11 / 10)))) ∧
    50 ≤ ch.tmax_cycle.ylim.2 ∧
    (∀ m, nanmax tm = some m →
      ch.tmax_cycle.ylim.2 = max 50 (m * (11 / 10))) ∧
    (∀ v, some v ∈ ch.tmax_cycle.heights → v ≤ ch.tmax_cycle.ylim.2)) ∧
    chA.tmax_cycle.ylim = none := by
  refine ⟨?_, (createChartsA_ok dfA chA hA).2⟩
  obtain ⟨cyc, dis, chg, soc, tm', m, e1, e2, e3, e4, e5, e6, hch⟩ :=
    createChartsB_ok df c t ch h
  rw [htm] at e5
  injection e5 with e5
  subst e5
  subst hch
  refine ⟨rfl, le_pymax _ _, ?_, ?_⟩
  · intro m' hm'
    show pymax 50 ((nanmax tm).map (fun v => v * (11 / 10))) = max 50 (m' * (11 / 10))
    rw [hm', Option.map_some', pymax_some]
  · intro v hv
    show v ≤ pymax 50 ((nanmax tm).map (fun v => v * (11 / 10)))
    obtain ⟨mx, hmx, hvm⟩ := mem_le_nanmax tm v hv
    rw [hmx, Option.map_some', pymax_some]
    rcases le_or_lt v 50 with h50 | h50
    · exact le_trans h50 (le_max_left _ _)
    · have hmpos : 0 < mx := lt_trans (by norm_num) (lt_of_lt_of_le h50 hvm)
      have : mx ≤ mx * (11 / 10) := by nlinarith
      exact le_trans (le_trans hvm this) (le_max_right _ _)

/-- Witness for C7 on the two augmented sample frames (Tmax 40/46/30, upper
bound max(50, 50.6) = 50.6 in the extended variant, no explicit bounds in the
basic one). -/
theorem C7_tmax_chart_bounds_witness :
    (sampleChartsB.tmax_cycle.ylim =
      (0, pymax 50 ((nanmax [some 40, some 46, some 30]).map
        (fun v => v * (11 / 10)))) ∧
    50 ≤ sampleChartsB.tmax_cycle.ylim.2 ∧
    (∀ m, nanmax [some 40, some 46, some 30] = some m →
      sampleChartsB.tmax_cycle.ylim.2 = max 50 (m * (11 / 10))) ∧
    (∀ v, some v ∈ sampleChartsB.tmax_cycle.heights →
      v ≤ sampleChartsB.tmax_cycle.ylim.2)) ∧
    sampleChartsA.tmax_cycle.ylim = none :=
  C7_tmax_chart_bounds sampleAugB 930 (4 / 5) sampleChartsB
    [some 40, some 46, some 30] rfl rfl sampleAugA sampleChartsA rfl

/-- C8 counterexample: on the augmented sample frame the maximum bar value is
950 and the Ah chart's vertical-axis upper bound is 950 × 1.05 × 1.15 =
1147.125 = 9177/8, which is not ≤ 1.15 × 950 = 1092.5, so the claimed
1.05×–1.15× bracket fails. -/
theorem C8_ah_chart_bound_counterexample :
    (createChartsB sampleAugB 930 (4 / 5)).map (fun ch => ch.ah_cycle.ylim.2) =
      Except.ok ((950 : ℚ) * (21 / 20) * (23 / 20)) ∧
    npmax ([some 800, some 750, some 900] ++ [some 850, some 800, some 950]) =
      some 950 ∧
    ¬((21 / 20) * 950 ≤ (950 : ℚ) * (21 / 20) * (23 / 20) ∧
      (950 : ℚ) * (21 / 20) * (23 / 20) ≤ (23 / 20) * 950) :=
  ⟨by rfl, by rfl, by norm_num⟩

/-- C8 (amended): in the extended variant, whenever the Ah chart is produced
its vertical-axis upper bound equals 1.05 × 1.15 = 1.2075 times the maximum
bar value `m` (the numpy max over both Ah series); that is ≥ 1.05 m for
m ≥ 0 but strictly above 1.15 m for every positive m, so the bound is
1.2075× rather than within 1.05–1.15×.  The basic variant's `create_charts`
sets no explicit vertical bounds on its Ah chart (only the glyph row at
1.05 × the maximum), so no claimed bracket is established there. -/
theorem C8_ah_chart_bound (df : Frame) (c t : ℚ) (ch : ChartsB) (dis chg : Col)
    (h : createChartsB df c t = Except.ok ch)
    (hd : getCol df "Ah_dis" = Except.ok dis)
    (hc : getCol df "Ah_chg" = Except.ok chg)
    (dfA : Frame) (chA : ChartsA)
    (hA : createChartsA dfA = Except.ok chA) :
    (∃ m, npmax (dis ++ chg) = some m ∧
      ch.ah_cycle.ylim.2 = m * (21 / 20) * (23 / 20) ∧
      (0 ≤ m → (21 / 20) * m ≤ ch.ah_cycle.ylim.2) ∧
      (0 < m → (23 / 20) * m < ch.ah_cycle.ylim.2)) ∧
    chA.ah_cycle.ylim = none := by
  refine ⟨?_, (createChartsA_ok dfA chA hA).1⟩
  obtain ⟨cyc, dis', chg', soc, tm, m, e1, e2, e3, e4, e5, e6, hch⟩ :=
    createChartsB_ok df c t ch h
  rw [hd] at e2
  injection e2 with e2
  subst e2
  rw [hc] at e3
  injection e3 with e3
  subst e3
  subst hch
  refine ⟨m, e6, rfl, ?_, ?_⟩
  · intro hm
    show (21 / 20) * m ≤ m * (21 / 20) * (23 / 20)
    nlinarith
  · intro hm
    show (23 / 20) * m < m * (21 / 20) * (23 / 20)
    nlinarith

/-- Witness for the amended C8 on the two augmented sample frames
(m = 950 in the extended variant, no explicit bounds in the basic one). -/
theorem C8_ah_chart_bound_witness :
    (∃ m, npmax ([some 800, some 750, some 900] ++
        [some 850, some 800, some 950]) = some m ∧
      sampleChartsB.ah_cycle.ylim.2 = m * (21 / 20) * (23 / 20) ∧
      (0 ≤ m → (21 / 20) * m ≤ sampleChartsB.ah_cycle.ylim.2) ∧
      (0 < m → (23 / 20) * m < sampleChartsB.ah_cycle.ylim.2)) ∧
    sampleChartsA.ah_cycle.ylim = none :=
  C8_ah_chart_bound sampleAugB 930 (4 / 5) sampleChartsB
    [some 800, some 750, some 900] [some 850, some 800, some 950] rfl rfl rfl
    sampleAugA sampleChartsA rfl

/-- C9: every threshold-count KPI of both variants lies between 0 and the
total cycle count, and each equals a count over only the present (non-NaN)
coerced cells — a missing cell is never counted by any threshold predicate. -/
theorem C9_count_kpis_bounded (dfA dfB : Frame) (c t : ℚ)
    (socDis socChg tmx tmn disA chgA disB chgB socB tmB : Col)
    (hwA : wf dfA = true)
    (e1 : getCol dfA "SoC at End of Discharge [%] (Ah discharged - Ah charged in Discharge phase) / Cnom" = Except.ok socDis)
    (e2 : getCol dfA "SoC at End of Charge [%]" = Except.ok socChg)
    (e3 : getCol dfA "Max. Temperature At Cycle (℃)" = Except.ok tmx)
    (e4 : getCol dfA "Min. Temperature At Cycle (℃)" = Except.ok tmn)
    (e5 : getCol dfA "Ah Discharged" = Except.ok disA)
    (e6 : getCol dfA "Ah Charged In Charge Phase" = Except.ok chgA)
    (hwB : wf dfB = true)
    (f1 : getCol dfB "Ah Discharged" = Except.ok disB)
    (f2 : getCol dfB "Ah Charged In Charge Phase" = Except.ok chgB)
    (f3 : getCol dfB "SoC at End of Charge [%]" = Except.ok socB)
    (f4 : getCol dfB "Max. Temperature At Cycle (℃)" = Except.ok tmB) :
    (∃ p, computeIndicatorsA dfA = Except.ok p ∧
      p.2.over_discharge =
        ((to_numeric socDis).filterMap id).countP (fun v => decide (v < 20)) ∧
      p.2.over_charge =
        ((to_numeric socChg).filterMap id).countP (fun v => decide (v > 105)) ∧
      p.2.high_temp =
        ((to_numeric tmx).filterMap id).countP (fun v => decide (v > 45)) ∧
      p.2.low_temp =
        ((to_numeric tmn).filterMap id).countP (fun v => decide (v < 0)) ∧
      p.2.full_charges =
        ((to_numeric socChg).filterMap id).countP (fun v => decide (v ≥ 99)) ∧
      p.2.over_discharge ≤ p.2.total_cycles ∧
      p.2.over_charge ≤ p.2.total_cycles ∧
      p.2.high_temp ≤ p.2.total_cycles ∧
      p.2.low_temp ≤ p.2.total_cycles ∧
      p.2.full_charges ≤ p.2.total_cycles)
    ∧ (∃ p, computeIndicatorsB dfB c t = Except.ok p ∧
      p.2.deep =
        ((to_numeric disB).filterMap id).countP (fun v => decide (v ≥ c * t)) ∧
      p.2.full =
        ((to_numeric socB).filterMap id).countP (fun v => decide (v ≥ 99)) ∧
      p.2.cycles_above45 =
        ((to_numeric tmB).filterMap id).countP (fun v => decide (v > 45)) ∧
      p.2.deep ≤ p.2.total ∧ p.2.full ≤ p.2.total ∧
      p.2.cycles_above45 ≤ p.2.total ∧
      0 ≤ p.2.partial_charges ∧ p.2.partial_charges ≤ (p.2.total : ℤ)) := by
  have l1 := getCol_length _ _ _ hwA e1
  have l2 := getCol_length _ _ _ hwA e2
  have l3 := getCol_length _ _ _ hwA e3
  have l4 := getCol_length _ _ _ hwA e4
  have l5 := getCol_length _ _ _ hwA e5
  have l6 := getCol_length _ _ _ hwA e6
  have k1 := getCol_length _ _ _ hwB f1
  have k2 := getCol_length _ _ _ hwB f2
  have k3 := getCol_length _ _ _ hwB f3
  have k4 := getCol_length _ _ _ hwB f4
  have ntotA : nRows (augFrameA dfA (to_numeric socDis) (to_numeric socChg)
      (to_numeric tmx) (to_numeric tmn) (to_numeric disA) (to_numeric chgA)) =
      nRows dfA :=
    nRows_augFrameA dfA _ _ _ _ _ _ l1 l2 l3 l4 l5 l6
  have ntotB : nRows (augFrameB dfB (to_numeric disB) (to_numeric chgB)
      (to_numeric socB) (to_numeric tmB)) = nRows dfB :=
    nRows_augFrameB dfB _ _ _ _ k1 k2 k3 k4
  constructor
  · refine ⟨_, computeIndicatorsA_eq dfA socDis socChg tmx tmn disA chgA
      e1 e2 e3 e4 e5 e6, countCol_eq_filterMap _ _, countCol_eq_filterMap _ _,
      countCol_eq_filterMap _ _, countCol_eq_filterMap _ _,
      countCol_eq_filterMap _ _, ?_, ?_, ?_, ?_, ?_⟩
    · exact le_trans (countCol_le_length _ _) (le_of_eq (l1.trans ntotA.symm))
    · exact le_trans (countCol_le_length _ _) (le_of_eq (l2.trans ntotA.symm))
    · exact le_trans (countCol_le_length _ _) (le_of_eq (l3.trans ntotA.symm))
    · exact le_trans (countCol_le_length _ _) (le_of_eq (l4.trans ntotA.symm))
    · exact le_trans (countCol_le_length _ _) (le_of_eq (l2.trans ntotA.symm))
  · have hdeep : countCol (fun v => decide (v ≥ c * t)) (to_numeric disB) ≤
        nRows (augFrameB dfB (to_numeric disB) (to_numeric chgB)
          (to_numeric socB) (to_numeric tmB)) :=
      le_trans (countCol_le_length _ _) (le_of_eq (k1.trans ntotB.symm))
    have hfull : countCol (fun v => decide (v ≥ 99)) (to_numeric socB) ≤
        nRows (augFrameB dfB (to_numeric disB) (to_numeric chgB)
          (to_numeric socB) (to_numeric tmB)) :=
      le_trans (countCol_le_length _ _) (le_of_eq (k3.trans ntotB.symm))
    have h45 : countCol (fun v => decide (v > 45)) (to_numeric tmB) ≤
        nRows (augFrameB dfB (to_numeric disB) (to_numeric chgB)
          (to_numeric socB) (to_numeric tmB)) :=
      le_trans (countCol_le_length _ _) (le_of_eq (k4.trans ntotB.symm))
    refine ⟨_, computeIndicatorsB_eq dfB c t disB chgB socB tmB f1 f2 f3 f4,
      countCol_eq_filterMap _ _, countCol_eq_filterMap _ _,
      countCol_eq_filterMap _ _, hdeep, hfull, h45, ?_, ?_⟩
    · show (0 : ℤ) ≤ (nRows (augFrameB dfB (to_numeric disB) (to_numeric chgB)
        (to_numeric socB) (to_numeric tmB)) : ℤ) -
        (countCol (fun v => decide (v ≥ 99)) (to_numeric socB) : ℤ)
      omega
    · show (nRows (augFrameB dfB (to_numeric disB) (to_numeric chgB)
        (to_numeric socB) (to_numeric tmB)) : ℤ) -
        (countCol (fun v => decide (v ≥ 99)) (to_numeric socB) : ℤ) ≤
        (nRows (augFrameB dfB (to_numeric disB) (to_numeric chgB)
          (to_numeric socB) (to_numeric tmB)) : ℤ)
      omega

/-- Witness for C9 on the sample scenario. -/
theorem C9_count_kpis_bounded_witness :
    (∃ p, computeIndicatorsA sampleFrame = Except.ok p ∧
      p.2.over_discharge =
        ((to_numeric [some 15, some 25, some 30]).filterMap id).countP
          (fun v => decide (v < 20)) ∧
      p.2.over_charge =
        ((to_numeric [some 100, some 98, some 100]).filterMap id).countP
          (fun v => decide (v > 105)) ∧
      p.2.high_temp =
        ((to_numeric [some 40, some 46, some 30]).filterMap id).countP
          (fun v => decide (v > 45)) ∧
      p.2.low_temp =
        ((to_numeric [some 5, some (-2), some 10]).filterMap id).countP
          (fun v => decide (v < 0)) ∧
      p.2.full_charges =
        ((to_numeric [some 100, some 98, some 100]).filterMap id).countP
          (fun v => decide (v ≥ 99)) ∧
      p.2.over_discharge ≤ p.2.total_cycles ∧
      p.2.over_charge ≤ p.2.total_cycles ∧
      p.2.high_temp ≤ p.2.total_cycles ∧
      p.2.low_temp ≤ p.2.total_cycles ∧
      p.2.full_charges ≤ p.2.total_cycles)
    ∧ (∃ p, computeIndicatorsB sampleFrame 930 (4 / 5) = Except.ok p ∧
      p.2.deep =
        ((to_numeric [some 800, some 750, some 900]).filterMap id).countP
          (fun v => decide (v ≥ 930 * (4 / 5))) ∧
      p.2.full =
        ((to_numeric [some 100, some 98, some 100]).filterMap id).countP
          (fun v => decide (v ≥ 99)) ∧
      p.2.cycles_above45 =
        ((to_numeric [some 40, some 46, some 30]).filterMap id).countP
          (fun v => decide (v > 45)) ∧
      p.2.deep ≤ p.2.total ∧ p.2.full ≤ p.2.total ∧
      p.2.cycles_above45 ≤ p.2.total ∧
      0 ≤ p.2.partial_charges ∧ p.2.partial_charges ≤ (p.2.total : ℤ)) :=
  C9_count_kpis_bounded sampleFrame sampleFrame 930 (4 / 5)
    [some 15, some 25, some 30] [some 100, some 98, some 100]
    [some 40, some 46, some 30] [some 5, some (-2), some 10]
    [some 800, some 750, some 900] [some 850, some 800, some 950]
    [some 800, some 750, some 900] [some 850, some 800, some 950]
    [some 100, some 98, some 100] [some 40, some 46, some 30]
    rfl rfl rfl rfl rfl rfl rfl rfl rfl rfl rfl rfl

/-- C10: both variants of `compute_indicators` start with `df = df.copy()`
and mutate only that copy: after the call the caller's frame object — and
every other pre-existing heap object — is exactly what it was, the returned
reference is a fresh object distinct from the argument, the augmented frame
carries the derived columns, and the caller's frame still lacks them. -/
theorem C10_compute_no_mutation
    (HA : Heap) (rA : ℕ) (dfA0 : Frame)
    (H : Heap) (r : ℕ) (c t : ℚ) (df0 : Frame)
    (hrA : HA[rA]? = some dfA0)
    (hcolsA : requiredColsA dfA0 = true)
    (hfreshA : (hasCol dfA0 "SoC_end_discharge" || hasCol dfA0 "SoC_end_charge" ||
                hasCol dfA0 "Tmax" || hasCol dfA0 "Tmin" ||
                hasCol dfA0 "Ah_dis" || hasCol dfA0 "Ah_chg") = false)
    (hr : H[r]? = some df0)
    (hcols : requiredColsB df0 = true)
    (hfresh : (hasCol df0 "Ah_dis" || hasCol df0 "Ah_chg" ||
               hasCol df0 "SoC_end_charge" || hasCol df0 "Tmax") = false) :
    (∃ H' r' s, heapComputeA HA rA = Except.ok (H', r', s) ∧
      H'[rA]? = some dfA0 ∧
      (∀ i, i < HA.length → H'[i]? = HA[i]?) ∧
      r' ≠ rA ∧
      (∃ df', H'[r']? = some df' ∧
        hasCol df' "SoC_end_discharge" = true ∧
        hasCol df' "SoC_end_charge" = true ∧
        hasCol df' "Tmax" = true ∧ hasCol df' "Tmin" = true ∧
        hasCol df' "Ah_dis" = true ∧ hasCol df' "Ah_chg" = true) ∧
      hasCol dfA0 "SoC_end_discharge" = false ∧
      hasCol dfA0 "SoC_end_charge" = false ∧
      hasCol dfA0 "Tmax" = false ∧ hasCol dfA0 "Tmin" = false ∧
      hasCol dfA0 "Ah_dis" = false ∧ hasCol dfA0 "Ah_chg" = false)
    ∧ (∃ H' r' s, heapComputeB H r c t = Except.ok (H', r', s) ∧
      H'[r]? = some df0 ∧
      (∀ i, i < H.length → H'[i]? = H[i]?) ∧
      r' ≠ r ∧
      (∃ df', H'[r']? = some df' ∧
        hasCol df' "Ah_dis" = true ∧ hasCol df' "Ah_chg" = true ∧
        hasCol df' "SoC_end_charge" = true ∧ hasCol df' "Tmax" = true) ∧
      hasCol df0 "Ah_dis" = false ∧ hasCol df0 "Ah_chg" = false ∧
      hasCol df0 "SoC_end_charge" = false ∧ hasCol df0 "Tmax" = false) := by
  constructor
  · unfold requiredColsA at hcolsA
    simp only [Bool.and_eq_true] at hcolsA
    obtain ⟨⟨⟨⟨⟨a1, a2⟩, a3⟩, a4⟩, a5⟩, a6⟩ := hcolsA
    obtain ⟨socDis, e1⟩ := hasCol_ok _ _ a1
    obtain ⟨socChg, e2⟩ := hasCol_ok _ _ a2
    obtain ⟨tmx, e3⟩ := hasCol_ok _ _ a3
    obtain ⟨tmn, e4⟩ := hasCol_ok _ _ a4
    obtain ⟨dis, e5⟩ := hasCol_ok _ _ a5
    obtain ⟨chg, e6⟩ := hasCol_ok _ _ a6
    simp only [Bool.or_eq_false_iff] at hfreshA
    obtain ⟨⟨⟨⟨⟨g1, g2⟩, g3⟩, g4⟩, g5⟩, g6⟩ := hfreshA
    obtain ⟨hrun, hkeep, hall, hne, hnew⟩ :=
      heapRun_ok computeIndicatorsA HA rA dfA0 _ _ hrA
        (computeIndicatorsA_eq dfA0 socDis socChg tmx tmn dis chg
          e1 e2 e3 e4 e5 e6)
    refine ⟨_, _, _, hrun, hkeep, hall, hne,
      ⟨_, hnew, ?_, ?_, ?_, ?_, ?_, ?_⟩, g1, g2, g3, g4, g5, g6⟩
    · unfold augFrameA
      rw [hasCol_setCol_ne _ _ _ _ (by decide),
          hasCol_setCol_ne _ _ _ _ (by decide),
          hasCol_setCol_ne _ _ _ _ (by decide),
          hasCol_setCol_ne _ _ _ _ (by decide),
          hasCol_setCol_ne _ _ _ _ (by decide), hasCol_setCol_self]
    · unfold augFrameA
      rw [hasCol_setCol_ne _ _ _ _ (by decide),
          hasCol_setCol_ne _ _ _ _ (by decide),
          hasCol_setCol_ne _ _ _ _ (by decide),
          hasCol_setCol_ne _ _ _ _ (by decide), hasCol_setCol_self]
    · unfold augFrameA
      rw [hasCol_setCol_ne _ _ _ _ (by decide),
          hasCol_setCol_ne _ _ _ _ (by decide),
          hasCol_setCol_ne _ _ _ _ (by decide), hasCol_setCol_self]
    · unfold augFrameA
      rw [hasCol_setCol_ne _ _ _ _ (by decide),
          hasCol_setCol_ne _ _ _ _ (by decide), hasCol_setCol_self]
    · unfold augFrameA
      rw [hasCol_setCol_ne _ _ _ _ (by decide), hasCol_setCol_self]
    · unfold augFrameA
      rw [hasCol_setCol_self]
  · unfold requiredColsB at hcols
    simp only [Bool.and_eq_true] at hcols
    obtain ⟨⟨⟨h1, h2⟩, h3⟩, h4⟩ := hcols
    obtain ⟨dis, e1⟩ := hasCol_ok _ _ h1
    obtain ⟨chg, e2⟩ := hasCol_ok _ _ h2
    obtain ⟨soc, e3⟩ := hasCol_ok _ _ h3
    obtain ⟨tm, e4⟩ := hasCol_ok _ _ h4
    simp only [Bool.or_eq_false_iff] at hfresh
    obtain ⟨⟨⟨g1, g2⟩, g3⟩, g4⟩ := hfresh
    obtain ⟨hrun, hkeep, hall, hne, hnew⟩ :=
      heapRun_ok (fun df => computeIndicatorsB df c t) H r df0 _ _ hr
        (computeIndicatorsB_eq df0 c t dis chg soc tm e1 e2 e3 e4)
    refine ⟨_, _, _, hrun, hkeep, hall, hne,
      ⟨_, hnew, ?_, ?_, ?_, ?_⟩, g1, g2, g3, g4⟩
    · unfold augFrameB
      rw [hasCol_setCol_ne _ _ _ _ (by decide),
          hasCol_setCol_ne _ _ _ _ (by decide),
          hasCol_setCol_ne _ _ _ _ (by decide), hasCol_setCol_self]
    · unfold augFrameB
      rw [hasCol_setCol_ne _ _ _ _ (by decide),
          hasCol_setCol_ne _ _ _ _ (by decide), hasCol_setCol_self]
    · unfold augFrameB
      rw [hasCol_setCol_ne _ _ _ _ (by decide), hasCol_setCol_self]
    · unfold augFrameB
      rw [hasCol_setCol_self]

/-- Witness for C10: one frame on the heap, run through each variant. -/
theorem C10_compute_no_mutation_witness :
    (∃ H' r' s, heapComputeA [sampleFrame] 0 = Except.ok (H', r', s) ∧
      H'[0]? = some sampleFrame ∧
      (∀ i, i < [sampleFrame].length → H'[i]? = [sampleFrame][i]?) ∧
      r' ≠ 0 ∧
      (∃ df', H'[r']? = some df' ∧
        hasCol df' "SoC_end_discharge" = true ∧
        hasCol df' "SoC_end_charge" = true ∧
        hasCol df' "Tmax" = true ∧ hasCol df' "Tmin" = true ∧
        hasCol df' "Ah_dis" = true ∧ hasCol df' "Ah_chg" = true) ∧
      hasCol sampleFrame "SoC_end_discharge" = false ∧
      hasCol sampleFrame "SoC_end_charge" = false ∧
      hasCol sampleFrame "Tmax" = false ∧ hasCol sampleFrame "Tmin" = false ∧
      hasCol sampleFrame "Ah_dis" = false ∧ hasCol sampleFrame "Ah_chg" = false)
    ∧ (∃ H' r' s, heapComputeB [sampleFrame] 0 930 (4 / 5) =
        Except.ok (H', r', s) ∧
      H'[0]? = some sampleFrame ∧
      (∀ i, i < [sampleFrame].length → H'[i]? = [sampleFrame][i]?) ∧
      r' ≠ 0 ∧
      (∃ df', H'[r']? = some df' ∧
        hasCol df' "Ah_dis" = true ∧ hasCol df' "Ah_chg" = true ∧
        hasCol df' "SoC_end_charge" = true ∧ hasCol df' "Tmax" = true) ∧
      hasCol sampleFrame "Ah_dis" = false ∧
      hasCol sampleFrame "Ah_chg" = false ∧
      hasCol sampleFrame "SoC_end_charge" = false ∧
      hasCol sampleFrame "Tmax" = false) :=
  C10_compute_no_mutation [sampleFrame] 0 sampleFrame [sampleFrame] 0
    930 (4 / 5) sampleFrame rfl rfl rfl rfl rfl rfl

/-- C6: on the empty dataset (columns present, zero rows) both variants
return a KPI mapping without raising: the total is 0, every count KPI is 0,
and the efficiency (and mean Tmax) is the undefined value. -/
theorem C6_empty_dataset_kpis :
    (computeIndicatorsA emptyFrame).map (fun p => p.2) =
      Except.ok { total_cycles := 0, over_discharge := 0, over_charge := 0,
                  high_temp := 0, low_temp := 0, full_charges := 0,
                  efficiency := none } ∧
    (computeIndicatorsB emptyFrame 930 (4 / 5)).map (fun p => p.2) =
      Except.ok { total := 0, deep := 0, full := 0, partial_charges := 0,
                  eff := none, cycles_above45 := 0, tmax_avg := none } :=
  ⟨rfl, rfl⟩

end BatteryReport
